import Mathlib

/-!
Verification of the Account REST microservice (devops-capstone-project).

The request handlers are embedded from `src/service/routes.py`.  The Account
entity model (`service.models.Account`) is not part of the provided sources
(only its callers in `routes.py` and its tests are), so its operations are
modelled from the specification, section 4.1; each such definition carries a
doc comment starting with `Modelled from the spec:`.

The relational store is embedded as an explicit `Store` value threaded through
the handlers; each handler is a pure function from request and store to
response and updated store.
-/

/-- A JSON value as far as the Account payloads need: strings, integers
and null.  (Nested objects/arrays never occur in an Account body.) -/
inductive Json where
  | str (s : String)
  | num (n : Int)
  | null
deriving Repr, DecidableEq

/-- A JSON object body for the Account payload: each field is `none` when the
key is absent from the mapping and `some v` when the key maps to `v`. -/
structure Body where
  id : Option Json
  name : Option Json
  email : Option Json
  address : Option Json
  phone_number : Option Json
  date_joined : Option Json
deriving Repr, DecidableEq

/-- Numeric value of a decimal digit character. -/
def digitVal (c : Char) : Nat := c.toNat - 48

/-- Modelled from the spec: `date_joined`, if present, "must parse as an ISO
date string".  An ISO date is `YYYY-MM-DD` with a plausible month and day. -/
def isIsoDate (s : String) : Bool :=
  match s.toList with
  | [y1, y2, y3, y4, h1, m1, m2, h2, d1, d2] =>
    y1.isDigit && y2.isDigit && y3.isDigit && y4.isDigit &&
    h1 == '-' && h2 == '-' &&
    m1.isDigit && m2.isDigit && d1.isDigit && d2.isDigit &&
    (let m := 10 * digitVal m1 + digitVal m2
     let d := 10 * digitVal d1 + digitVal d2
     decide (1 ≤ m) && decide (m ≤ 12) && decide (1 ≤ d) && decide (d ≤ 31))
  | _ => false

/-- The Account entity (spec section 3): `id` is store-assigned (`none` until
persisted), `name`/`email`/`address` required strings, `phone_number`
optional, `date_joined` an ISO date string. -/
structure Account where
  id : Option Nat
  name : String
  email : String
  address : String
  phone_number : Option String
  date_joined : String
deriving Repr, DecidableEq

/-- The relational store backing Account rows: the rows in store order plus
the next primary key to assign (ids are unique and never reused). -/
structure Store where
  nextId : Nat
  rows : List Account
deriving Repr, DecidableEq

/-- Modelled from the spec: validation failure raised by `deserialize`,
citing the missing key, the badly-typed attribute, or the unparsable date. -/
inductive DataValidationError where
  | missing (key : String)
  | badType (key : String)
  | badDate (s : String)
deriving Repr, DecidableEq

/-- The human-readable message carried by a `DataValidationError`. -/
def DataValidationError.message : DataValidationError → String
  | .missing key => "Invalid Account: missing " ++ key
  | .badType key => "Invalid Account: bad or no data for " ++ key
  | .badDate s => "Invalid Account: date_joined does not parse: " ++ s

/-- Modelled from the spec: a required key must be present and hold a string;
absence fails citing the missing key, a type mismatch fails citing the bad
attribute. -/
def reqString (key : String) (v : Option Json) : Except DataValidationError String :=
  match v with
  | none => Except.error (DataValidationError.missing key)
  | some (Json.str s) => Except.ok s
  | some _ => Except.error (DataValidationError.badType key)

/-- Modelled from the spec: `deserialize(json_object)` populates the entity's
fields from the mapping.  Required keys `name`, `email`, `address` must be
present (strings); `phone_number` is optional; `date_joined`, if present,
must parse as an ISO date string and defaults to the creation date (`today`)
otherwise; `id` is not touched.  On success the receiver is returned with the
fields assigned. -/
def Account.deserialize (a : Account) (data : Body) (today : String) :
    Except DataValidationError Account := do
  let n ← reqString "name" data.name
  let e ← reqString "email" data.email
  let ad ← reqString "address" data.address
  let ph ← match data.phone_number with
    | none => Except.ok none
    | some Json.null => Except.ok none
    | some (Json.str s) => Except.ok (some s)
    | some _ => Except.error (DataValidationError.badType "phone_number")
  let dj ← match data.date_joined with
    | none => Except.ok today
    | some Json.null => Except.ok today
    | some (Json.str s) =>
        if isIsoDate s then Except.ok s
        else Except.error (DataValidationError.badDate s)
    | some _ => Except.error (DataValidationError.badType "date_joined")
  Except.ok { id := a.id, name := n, email := e, address := ad,
              phone_number := ph, date_joined := dj }

/-- Modelled from the spec: `serialize()` produces a mapping containing `id`,
`name`, `email`, `address`, `phone_number`, `date_joined` (as ISO date
string); a pure function of entity state. -/
def Account.serialize (a : Account) : Body :=
  { id := some (match a.id with | some i => Json.num i | none => Json.null),
    name := some (Json.str a.name),
    email := some (Json.str a.email),
    address := some (Json.str a.address),
    phone_number := some (match a.phone_number with
      | some p => Json.str p
      | none => Json.null),
    date_joined := some (Json.str a.date_joined) }

/-- Modelled from the spec: `create()` inserts the current entity as a new
row; the store assigns and fills `id`. -/
def Account.create (a : Account) (s : Store) : Account × Store :=
  let created := { a with id := some s.nextId }
  (created, { nextId := s.nextId + 1, rows := s.rows ++ [created] })

/-- Modelled from the spec: `find(id)` is a class-level lookup by primary
key, returning the matching entity or an explicit absent indicator. -/
def Account.find (account_id : Nat) (s : Store) : Option Account :=
  s.rows.find? (fun a => a.id == some account_id)

/-- Modelled from the spec: `all()` returns every row as entities, in
store-native order; the empty sequence when the table is empty. -/
def Account.allRows (s : Store) : List Account :=
  s.rows

/-- Modelled from the spec: `update()` persists the current entity's fields,
keyed by its existing `id`, to the matching row. -/
def Account.update (a : Account) (s : Store) : Store :=
  { s with rows := s.rows.map (fun r => if r.id == a.id then a else r) }

/-- Modelled from the spec: `delete()` removes the row matching `id`; a
no-op (no error) if no such row exists. -/
def Account.delete (a : Account) (s : Store) : Store :=
  { s with rows := s.rows.filter (fun r => !(r.id == a.id)) }

/-- An HTTP request as the handlers observe it: the `Content-Type` header
(absent or its exact string value) and the parsed JSON body (`none` when the
body is missing or not parseable JSON). -/
structure Request where
  contentType : Option String
  body : Option Body
deriving Repr, DecidableEq

/-- A handler response body: a serialized account object, a JSON array of
serialized accounts, an error message, or the empty body. -/
inductive RespBody where
  | obj (b : Body)
  | list (l : List Body)
  | text (s : String)
  | empty
deriving Repr, DecidableEq

/-- An HTTP response: status code, body, and the optional `Location`
header. -/
structure Response where
  status : Nat
  body : RespBody
  location : Option String
deriving Repr, DecidableEq

/-- `check_content_type` from `routes.py`: reads the `Content-Type` header
and accepts only a non-empty header equal to the expected media type
(`if header_type and header_type == media_type`); returns `true` when the
request passes. -/
def check_content_type (media_type : String) (header_type : Option String) : Bool :=
  match header_type with
  | some h => !(h == "") && h == media_type
  | none => false

/-- The 415 response produced when `check_content_type` aborts. -/
def unsupportedMediaTypeResp (media_type : String) : Response :=
  { status := 415,
    body := RespBody.text ("Content-Type must be " ++ media_type),
    location := none }

/-- The 400 response produced when a `DataValidationError` surfaces. -/
def badRequestResp (e : DataValidationError) : Response :=
  { status := 400, body := RespBody.text e.message, location := none }

/-- The 400 response when the request carries no parseable JSON body. -/
def noBodyResp : Response :=
  { status := 400,
    body := RespBody.text "Invalid Account: body of request contained bad or no data",
    location := none }

/-- A fresh in-memory `Account()` before deserialization: no id, empty
required fields, no phone number, `date_joined` defaulted to today. -/
def Account.fresh (today : String) : Account :=
  { id := none, name := "", email := "", address := "",
    phone_number := none, date_joined := today }

/-- `create_accounts` from `routes.py`: checks the content type, then
deserializes the posted body into a fresh account, persists it, and answers
201 with the serialized account and a `Location` header (placeholder `/`). -/
def create_accounts (r : Request) (today : String) (s : Store) : Response × Store :=
  if !check_content_type "application/json" r.contentType then
    (unsupportedMediaTypeResp "application/json", s)
  else
    match r.body with
    | none => (noBodyResp, s)
    | some data =>
      match (Account.fresh today).deserialize data today with
      | Except.error e => (badRequestResp e, s)
      | Except.ok account =>
        let (created, s2) := account.create s
        ({ status := 201, body := RespBody.obj created.serialize,
           location := some "/" }, s2)

/-- `list_accounts` from `routes.py`: serializes every account returned by
`Account.all()` and answers 200. -/
def list_accounts (s : Store) : Response :=
  { status := 200,
    body := RespBody.list ((Account.allRows s).map Account.serialize),
    location := none }

/-- `get_accounts` from `routes.py`: finds the account by id, answers 404
when absent, otherwise 200 with the serialized account. -/
def get_accounts (account_id : Nat) (s : Store) : Response :=
  match Account.find account_id s with
  | none =>
    { status := 404,
      body := RespBody.text
        ("Account with id [" ++ toString account_id ++ "] not located."),
      location := none }
  | some result =>
    { status := 200, body := RespBody.obj result.serialize, location := none }

/-- `update_account` from `routes.py`: finds the account by id (404 when
absent, before the body is read), deserializes the body over the existing
entity (400 on validation failure), persists the update, and answers 200
with the serialized updated account.  No content-type check is performed. -/
def update_account (account_id : Nat) (r : Request) (today : String) (s : Store) :
    Response × Store :=
  match Account.find account_id s with
  | none =>
    ({ status := 404,
       body := RespBody.text
         ("Account with id [" ++ toString account_id ++ "] not found for update"),
       location := none }, s)
  | some existing =>
    match r.body with
    | none => (noBodyResp, s)
    | some data =>
      match existing.deserialize data today with
      | Except.error e => (badRequestResp e, s)
      | Except.ok updated =>
        (({ status := 200, body := RespBody.obj updated.serialize,
            location := none } : Response), updated.update s)

/-- `delete_accounts` from `routes.py`: finds the account by id, deletes it
when present, and answers 204 with an empty body either way. -/
def delete_accounts (account_id : Nat) (s : Store) : Response × Store :=
  match Account.find account_id s with
  | some target => (({ status := 204, body := RespBody.empty, location := none } : Response),
                    target.delete s)
  | none => (({ status := 204, body := RespBody.empty, location := none } : Response), s)

/-- A body that deserialization accepts: required keys present as strings,
`phone_number` absent, null or a string, `date_joined` absent, null or an
ISO date string. -/
def WellFormedBody (b : Body) : Prop :=
  (∃ s, b.name = some (Json.str s)) ∧
  (∃ s, b.email = some (Json.str s)) ∧
  (∃ s, b.address = some (Json.str s)) ∧
  (b.phone_number = none ∨ b.phone_number = some Json.null ∨
    ∃ s, b.phone_number = some (Json.str s)) ∧
  (b.date_joined = none ∨ b.date_joined = some Json.null ∨
    ∃ s, isIsoDate s = true ∧ b.date_joined = some (Json.str s))

/-- The store with no accounts and the first id to assign. -/
def emptyStore : Store := { nextId := 1, rows := [] }

/-- `createAll bodies today s` runs the create handler once per body, with
the correct content type, threading the store. -/
def createAll (bodies : List Body) (today : String) (s : Store) : Store :=
  bodies.foldl
    (fun st b =>
      (create_accounts { contentType := some "application/json", body := some b } today st).2)
    s

/-- The phone number that deserialization extracts from a well-formed body:
the string when present, `none` when absent or null. -/
def bodyPhone (b : Body) : Option String :=
  match b.phone_number with
  | some (Json.str p) => some p
  | _ => none

/-- The date that deserialization extracts from a well-formed body: the ISO
string when present, the creation date (`today`) when absent or null. -/
def bodyDate (b : Body) (today : String) : String :=
  match b.date_joined with
  | some (Json.str d) => d
  | _ => today

lemma deserialize_ok_of_wellFormed (a : Account) (b : Body) (today : String)
    (n e ad : String)
    (hn : b.name = some (Json.str n)) (he : b.email = some (Json.str e))
    (ha : b.address = some (Json.str ad))
    (hp : b.phone_number = none ∨ b.phone_number = some Json.null ∨
      ∃ p, b.phone_number = some (Json.str p))
    (hd : b.date_joined = none ∨ b.date_joined = some Json.null ∨
      ∃ d, isIsoDate d = true ∧ b.date_joined = some (Json.str d)) :
    a.deserialize b today = Except.ok
      { id := a.id, name := n, email := e, address := ad,
        phone_number := bodyPhone b, date_joined := bodyDate b today } := by
  rcases hp with hp | hp | ⟨p, hp⟩ <;>
    rcases hd with hd | hd | ⟨d, hiso, hd⟩ <;>
      simp [Account.deserialize, reqString, bodyPhone, bodyDate,
        hn, he, ha, hp, hd, *] <;> rfl

lemma deserialize_error_of_missing (a : Account) (b : Body) (today : String)
    (h : b.name = none ∨ b.email = none ∨ b.address = none) :
    ∃ e, a.deserialize b today = Except.error e := by
  rcases h with h | h | h
  · have h1 : reqString "name" b.name
        = Except.error (DataValidationError.missing "name") := by rw [h]; rfl
    exact ⟨DataValidationError.missing "name",
      by simp [Account.deserialize, h1]; rfl⟩
  · have h2 : reqString "email" b.email
        = Except.error (DataValidationError.missing "email") := by rw [h]; rfl
    cases h1 : reqString "name" b.name with
    | error e1 => exact ⟨e1, by simp [Account.deserialize, h1]; rfl⟩
    | ok n =>
      exact ⟨DataValidationError.missing "email",
        by simp [Account.deserialize, h1, h2]; rfl⟩
  · have h3 : reqString "address" b.address
        = Except.error (DataValidationError.missing "address") := by rw [h]; rfl
    cases h1 : reqString "name" b.name with
    | error e1 => exact ⟨e1, by simp [Account.deserialize, h1]; rfl⟩
    | ok n =>
      cases h2 : reqString "email" b.email with
      | error e2 => exact ⟨e2, by simp [Account.deserialize, h1, h2]; rfl⟩
      | ok e =>
        exact ⟨DataValidationError.missing "address",
          by simp [Account.deserialize, h1, h2, h3]; rfl⟩

lemma find_id_of_found (account_id : Nat) (s : Store) (a : Account)
    (h : Account.find account_id s = some a) : a.id = some account_id := by
  have hmem := List.find?_some h
  simpa using hmem

lemma find_delete_absent (account_id : Nat) (s : Store) (target : Account)
    (hid : target.id = some account_id) :
    Account.find account_id (target.delete s) = none := by
  rw [Account.find, Account.delete, List.find?_eq_none]
  intro x hx
  rcases List.mem_filter.mp hx with ⟨-, hkeep⟩
  simp only [hid] at hkeep
  simpa using hkeep

lemma find?_map_update (i : Nat) (a' : Account) (h : a'.id = some i) :
    ∀ l : List Account, (l.find? (fun r => r.id == some i)).isSome →
      (l.map (fun r => if r.id == some i then a' else r)).find?
        (fun r => r.id == some i) = some a'
  | [], hfound => by simp [List.find?] at hfound
  | x :: xs, hfound => by
    cases hx : (x.id == some i) with
    | true =>
      have hhead : (if (x.id == some i) = true then a' else x) = a' := by
        simp [hx]
      rw [List.map_cons, hhead, List.find?_cons_of_pos]
      simp [h]
    | false =>
      have hhead : (if (x.id == some i) = true then a' else x) = x := by
        simp [hx]
      have hfound' : (xs.find? (fun r => r.id == some i)).isSome := by
        rwa [List.find?_cons_of_neg _ (by simp [hx])] at hfound
      rw [List.map_cons, hhead, List.find?_cons_of_neg _ (by simp [hx])]
      exact find?_map_update i a' h xs hfound'

lemma check_content_type_json_ok :
    check_content_type "application/json" (some "application/json") = true := by
  rfl

lemma check_content_type_fails (ct : Option String)
    (h : ct ≠ some "application/json") :
    check_content_type "application/json" ct = false := by
  cases ct with
  | none => rfl
  | some hd =>
    have hne : hd ≠ "application/json" := fun hc => h (by rw [hc])
    simp [check_content_type, hne]

lemma create_accounts_wrong_ct (r : Request) (today : String) (s : Store)
    (h : r.contentType ≠ some "application/json") :
    create_accounts r today s = (unsupportedMediaTypeResp "application/json", s) := by
  simp [create_accounts, check_content_type_fails r.contentType h]

lemma create_accounts_ok (b : Body) (ct : Option String) (today : String) (s : Store)
    (hct : ct = some "application/json")
    (n e ad : String)
    (hn : b.name = some (Json.str n)) (he : b.email = some (Json.str e))
    (ha : b.address = some (Json.str ad))
    (hp : b.phone_number = none ∨ b.phone_number = some Json.null ∨
      ∃ p, b.phone_number = some (Json.str p))
    (hd : b.date_joined = none ∨ b.date_joined = some Json.null ∨
      ∃ d, isIsoDate d = true ∧ b.date_joined = some (Json.str d)) :
    create_accounts { contentType := ct, body := some b } today s
      = ({ status := 201,
           body := RespBody.obj (Account.serialize
             { id := some s.nextId, name := n, email := e, address := ad,
               phone_number := bodyPhone b, date_joined := bodyDate b today }),
           location := some "/" },
         { nextId := s.nextId + 1,
           rows := s.rows ++
             [{ id := some s.nextId, name := n, email := e, address := ad,
                phone_number := bodyPhone b, date_joined := bodyDate b today }] }) := by
  subst hct
  simp [create_accounts, check_content_type_json_ok,
    deserialize_ok_of_wellFormed (Account.fresh today) b today n e ad hn he ha hp hd,
    Account.create]

lemma createAll_length (today : String) :
    ∀ (bodies : List Body) (s : Store),
      (∀ b ∈ bodies, WellFormedBody b) →
      (createAll bodies today s).rows.length = s.rows.length + bodies.length
  | [], s, _ => by simp [createAll]
  | b :: bs, s, hwf => by
    rcases hwf b (List.mem_cons_self b bs) with ⟨⟨n, hn⟩, ⟨e, he⟩, ⟨ad, ha⟩, hp, hd⟩
    have hstep := create_accounts_ok b (some "application/json") today s rfl
      n e ad hn he ha hp hd
    have htail : ∀ x ∈ bs, WellFormedBody x := fun x hx => hwf x (List.mem_cons_of_mem b hx)
    have : createAll (b :: bs) today s
        = createAll bs today
            (create_accounts { contentType := some "application/json", body := some b } today s).2 := by
      simp [createAll, List.foldl_cons]
    rw [this, hstep]
    rw [createAll_length today bs _ htail]
    simp
    omega

/-- A concrete well-formed request body used to exercise the handlers. -/
def demoBody : Body :=
  { id := none, name := some (Json.str "Joe"),
    email := some (Json.str "joe@x.com"),
    address := some (Json.str "1 Main St"),
    phone_number := some (Json.str "555-1212"),
    date_joined := some (Json.str "2024-01-15") }

/-- The stored account that creating `demoBody` first produces. -/
def demoAccount : Account :=
  { id := some 1, name := "Joe", email := "joe@x.com", address := "1 Main St",
    phone_number := some "555-1212", date_joined := "2024-01-15" }

/-- A store holding exactly `demoAccount`. -/
def demoStore : Store := { nextId := 2, rows := [demoAccount] }

lemma demoBody_wellFormed : WellFormedBody demoBody :=
  ⟨⟨"Joe", rfl⟩, ⟨"joe@x.com", rfl⟩, ⟨"1 Main St", rfl⟩,
   Or.inr (Or.inr ⟨"555-1212", rfl⟩),
   Or.inr (Or.inr ⟨"2024-01-15", by decide, rfl⟩)⟩

/-- C1: every POST /accounts request whose Content-Type header is exactly
"application/json" and whose JSON body carries the required fields `name`,
`email`, `address` (optionally `phone_number` and an ISO `date_joined`)
makes the create handler answer 201 with the serialized created account as
the body and a `Location` header present; the created account is appended
to the store. -/
theorem c1_create_success (r : Request) (b : Body) (today : String) (s : Store)
    (hct : r.contentType = some "application/json")
    (hb : r.body = some b) (hwf : WellFormedBody b) :
    (create_accounts r today s).1.status = 201 ∧
    ((create_accounts r today s).1.location).isSome = true ∧
    ∃ created : Account,
      (create_accounts r today s).1.body = RespBody.obj created.serialize ∧
      (create_accounts r today s).2.rows = s.rows ++ [created] := by
  obtain ⟨⟨n, hn⟩, ⟨e, he⟩, ⟨ad, ha⟩, hp, hd⟩ := hwf
  obtain ⟨ct, rb⟩ := r
  simp only [Request.contentType] at hct
  simp only [Request.body] at hb
  subst hct
  subst hb
  rw [create_accounts_ok b (some "application/json") today s rfl n e ad hn he ha hp hd]
  exact ⟨rfl, rfl, _, rfl, rfl⟩

/-- Witness for C1 at a concrete request. -/
theorem c1_create_success_witness :
    (create_accounts { contentType := some "application/json", body := some demoBody }
        "2024-06-01" emptyStore).1.status = 201 ∧
    ((create_accounts { contentType := some "application/json", body := some demoBody }
        "2024-06-01" emptyStore).1.location).isSome = true ∧
    ∃ created : Account,
      (create_accounts { contentType := some "application/json", body := some demoBody }
          "2024-06-01" emptyStore).1.body = RespBody.obj created.serialize ∧
      (create_accounts { contentType := some "application/json", body := some demoBody }
          "2024-06-01" emptyStore).2.rows = emptyStore.rows ++ [created] :=
  c1_create_success ⟨some "application/json", some demoBody⟩ demoBody "2024-06-01"
    emptyStore rfl rfl demoBody_wellFormed

/-- C2: every POST /accounts request whose Content-Type header is not
character-for-character "application/json" — including no header at all —
gets a 415 response with the store untouched, and the result does not depend
on the request body (the body never reaches deserialize, no account is
created). -/
theorem c2_create_wrong_content_type (r : Request) (today : String) (s : Store)
    (h : r.contentType ≠ some "application/json") :
    create_accounts r today s = (unsupportedMediaTypeResp "application/json", s) ∧
    (unsupportedMediaTypeResp "application/json").status = 415 ∧
    ∀ b' : Option Body,
      create_accounts { contentType := r.contentType, body := b' } today s
        = (unsupportedMediaTypeResp "application/json", s) :=
  ⟨create_accounts_wrong_ct r today s h, rfl,
   fun b' => create_accounts_wrong_ct ⟨r.contentType, b'⟩ today s h⟩

/-- Witness for C2 at a concrete request with a valid body but wrong media
type. -/
theorem c2_create_wrong_content_type_witness :
    create_accounts { contentType := some "test/html", body := some demoBody }
        "2024-06-01" emptyStore
      = (unsupportedMediaTypeResp "application/json", emptyStore) :=
  (c2_create_wrong_content_type ⟨some "test/html", some demoBody⟩ "2024-06-01"
    emptyStore (by decide)).1

/-- C3: every POST /accounts request with Content-Type "application/json"
whose JSON body lacks `name`, `email` or `address` gets a 400 response and
leaves the store unchanged (no account row is inserted). -/
theorem c3_create_missing_required_field (r : Request) (b : Body) (today : String)
    (s : Store)
    (hct : r.contentType = some "application/json")
    (hb : r.body = some b)
    (hmiss : b.name = none ∨ b.email = none ∨ b.address = none) :
    (create_accounts r today s).1.status = 400 ∧
    (create_accounts r today s).2 = s := by
  obtain ⟨e, he⟩ := deserialize_error_of_missing (Account.fresh today) b today hmiss
  obtain ⟨ct, rb⟩ := r
  simp only [Request.contentType] at hct
  simp only [Request.body] at hb
  subst hct
  subst hb
  simp [create_accounts, check_content_type, he, badRequestResp]

/-- Witness for C3 at a concrete body missing `email` and `address`. -/
theorem c3_create_missing_required_field_witness :
    (create_accounts
        { contentType := some "application/json",
          body := some { demoBody with email := none, address := none } }
        "2024-06-01" emptyStore).1.status = 400 ∧
    (create_accounts
        { contentType := some "application/json",
          body := some { demoBody with email := none, address := none } }
        "2024-06-01" emptyStore).2 = emptyStore :=
  c3_create_missing_required_field
    ⟨some "application/json", some { demoBody with email := none, address := none }⟩
    { demoBody with email := none, address := none } "2024-06-01" emptyStore
    rfl rfl (Or.inr (Or.inl rfl))

/-- C4: GET /accounts/{id} answers 200 with the serialized account when the
lookup finds it, and 404 when the find operation reports absence. -/
theorem c4_read_found_or_404 (account_id : Nat) (s : Store) :
    (∀ a : Account, Account.find account_id s = some a →
      get_accounts account_id s
        = { status := 200, body := RespBody.obj a.serialize, location := none }) ∧
    (Account.find account_id s = none →
      (get_accounts account_id s).status = 404) := by
  constructor
  · intro a ha
    simp [get_accounts, ha]
  · intro h
    simp [get_accounts, h]

/-- Witness for C4: a present id answers 200 with the account, an absent id
answers 404. -/
theorem c4_read_found_or_404_witness :
    get_accounts 1 demoStore
      = { status := 200, body := RespBody.obj demoAccount.serialize, location := none } ∧
    (get_accounts 2 demoStore).status = 404 :=
  ⟨(c4_read_found_or_404 1 demoStore).1 demoAccount (by decide),
   (c4_read_found_or_404 2 demoStore).2 (by decide)⟩

/-- C5: a PUT /accounts/{id} request on an existing account with a valid
JSON body answers 200 with the serialized updated account, every field
except `id` is replaced by the body's values, and a subsequent read of that
id returns the new values. -/
theorem c5_update_success (account_id : Nat) (s : Store) (a : Account) (b : Body)
    (ct : Option String) (today n e ad p d : String)
    (hfind : Account.find account_id s = some a)
    (hn : b.name = some (Json.str n)) (he : b.email = some (Json.str e))
    (ha : b.address = some (Json.str ad))
    (hp : b.phone_number = some (Json.str p))
    (hiso : isIsoDate d = true) (hdj : b.date_joined = some (Json.str d)) :
    ∃ updated : Account,
      updated.id = a.id ∧ updated.name = n ∧ updated.email = e ∧
      updated.address = ad ∧ updated.phone_number = some p ∧
      updated.date_joined = d ∧
      (update_account account_id { contentType := ct, body := some b } today s).1
        = { status := 200, body := RespBody.obj updated.serialize, location := none } ∧
      get_accounts account_id
          (update_account account_id { contentType := ct, body := some b } today s).2
        = { status := 200, body := RespBody.obj updated.serialize, location := none } := by
  have hid : a.id = some account_id := find_id_of_found account_id s a hfind
  have hph : bodyPhone b = some p := by simp [bodyPhone, hp]
  have hbd : bodyDate b today = d := by simp [bodyDate, hdj]
  have hdes := deserialize_ok_of_wellFormed a b today n e ad hn he ha
    (Or.inr (Or.inr ⟨p, hp⟩)) (Or.inr (Or.inr ⟨d, hiso, hdj⟩))
  rw [hph, hbd] at hdes
  refine ⟨⟨a.id, n, e, ad, some p, d⟩, rfl, rfl, rfl, rfl, rfl, rfl, ?_, ?_⟩
  · simp [update_account, hfind, hdes]
  · have hfound : (s.rows.find? (fun r => r.id == some account_id)).isSome = true := by
      unfold Account.find at hfind
      simp [hfind]
    have hupd : Account.find account_id
        (Account.update ⟨a.id, n, e, ad, some p, d⟩ s)
        = some ⟨a.id, n, e, ad, some p, d⟩ := by
      unfold Account.find Account.update
      simp only [hid]
      exact find?_map_update account_id ⟨some account_id, n, e, ad, some p, d⟩ rfl
        s.rows hfound
    simp [update_account, hfind, hdes, get_accounts, hupd]

/-- Witness for C5 at a concrete store and body. -/
theorem c5_update_success_witness :
    ∃ updated : Account,
      updated.id = demoAccount.id ∧ updated.name = "Jane" ∧
      updated.email = "jane@x.com" ∧ updated.address = "2 Oak Ave" ∧
      updated.phone_number = some "555-9999" ∧ updated.date_joined = "2025-02-03" ∧
      (update_account 1
          { contentType := some "application/json",
            body := some { id := none, name := some (Json.str "Jane"),
                           email := some (Json.str "jane@x.com"),
                           address := some (Json.str "2 Oak Ave"),
                           phone_number := some (Json.str "555-9999"),
                           date_joined := some (Json.str "2025-02-03") } }
          "2024-06-01" demoStore).1
        = { status := 200, body := RespBody.obj updated.serialize, location := none } ∧
      get_accounts 1
          (update_account 1
            { contentType := some "application/json",
              body := some { id := none, name := some (Json.str "Jane"),
                             email := some (Json.str "jane@x.com"),
                             address := some (Json.str "2 Oak Ave"),
                             phone_number := some (Json.str "555-9999"),
                             date_joined := some (Json.str "2025-02-03") } }
            "2024-06-01" demoStore).2
        = { status := 200, body := RespBody.obj updated.serialize, location := none } :=
  c5_update_success 1 demoStore demoAccount
    { id := none, name := some (Json.str "Jane"),
      email := some (Json.str "jane@x.com"),
      address := some (Json.str "2 Oak Ave"),
      phone_number := some (Json.str "555-9999"),
      date_joined := some (Json.str "2025-02-03") }
    (some "application/json") "2024-06-01" "Jane" "jane@x.com" "2 Oak Ave"
    "555-9999" "2025-02-03" (by decide) rfl rfl rfl rfl (by decide) rfl

/-- C6: DELETE /accounts/{id} always answers 204 with an empty body, whether
the account exists or not, and afterwards no account with that id exists. -/
theorem c6_delete_always_204 (account_id : Nat) (s : Store) :
    (delete_accounts account_id s).1
      = { status := 204, body := RespBody.empty, location := none } ∧
    Account.find account_id (delete_accounts account_id s).2 = none := by
  cases hf : Account.find account_id s with
  | none => simp [delete_accounts, hf]
  | some target =>
    have hid := find_id_of_found account_id s target hf
    simp [delete_accounts, hf, find_delete_absent account_id s target hid]

/-- C7: GET /accounts answers 200 with the serialized form of every stored
account (the empty array on an empty table), and creating N accounts from
the empty store yields exactly N stored entries. -/
theorem c7_list_all (s : Store) :
    ((list_accounts s).status = 200 ∧
     (list_accounts s).body = RespBody.list (s.rows.map Account.serialize)) ∧
    ∀ (bodies : List Body) (today : String),
      (∀ b ∈ bodies, WellFormedBody b) →
      (createAll bodies today emptyStore).rows.length = bodies.length := by
  refine ⟨⟨rfl, rfl⟩, fun bodies today hwf => ?_⟩
  have h := createAll_length today bodies emptyStore hwf
  simpa [emptyStore] using h

/-- Witness for C7: two creates from the empty store make the listing carry
exactly two entries. -/
theorem c7_list_all_witness :
    (createAll [demoBody, demoBody] "2024-06-01" emptyStore).rows.length = 2 :=
  (c7_list_all emptyStore).2 [demoBody, demoBody] "2024-06-01"
    (fun b hb => by
      rcases List.mem_cons.mp hb with h | h
      · rw [h]; exact demoBody_wellFormed
      · rcases List.mem_cons.mp h with h2 | h2
        · rw [h2]; exact demoBody_wellFormed
        · cases h2)

/-- C8: for every valid Account `x` (its `date_joined` an ISO date string),
deserializing the mapping produced by `serialize x` reproduces `x`'s `name`,
`email`, `address`, `phone_number` and `date_joined`; only `id` keeps the
receiver's value. -/
theorem c8_serialize_deserialize_roundtrip (x a : Account) (today : String)
    (h : isIsoDate x.date_joined = true) :
    a.deserialize x.serialize today = Except.ok { x with id := a.id } := by
  cases x with
  | mk id name email address phone date =>
    cases phone <;>
      simp [Account.serialize, Account.deserialize, reqString, h] <;> rfl

/-- Witness for C8 at a concrete account. -/
theorem c8_serialize_deserialize_roundtrip_witness :
    Account.deserialize (Account.fresh "2024-06-01") demoAccount.serialize "2024-06-01"
      = Except.ok { demoAccount with id := none } :=
  c8_serialize_deserialize_roundtrip demoAccount (Account.fresh "2024-06-01")
    "2024-06-01" (by decide)

/-- C9: a PUT /accounts/{id} request for an absent id answers 404 with the
store unchanged, no matter what the body is (even a malformed or missing
body never yields 400, because the 404 fires before the body is read). -/
theorem c9_update_absent_404 (account_id : Nat) (s : Store)
    (h : Account.find account_id s = none) (r : Request) (today : String) :
    update_account account_id r today s
      = ({ status := 404,
           body := RespBody.text
             ("Account with id [" ++ toString account_id ++ "] not found for update"),
           location := none }, s) := by
  simp [update_account, h]

/-- Witness for C9 at an absent id with a missing (unparseable) body. -/
theorem c9_update_absent_404_witness :
    update_account 5 { contentType := none, body := none } "2024-06-01" emptyStore
      = ({ status := 404,
           body := RespBody.text "Account with id [5] not found for update",
           location := none }, emptyStore) :=
  c9_update_absent_404 5 emptyStore (by decide) ⟨none, none⟩ "2024-06-01"

/-- C10: the update handler performs no content-type validation: its status
is never 415 and its result does not depend on the Content-Type header;
content-type checking is applied by the create handler, which answers 415
on any other header. -/
theorem c10_update_no_content_type_check (account_id : Nat) (r : Request)
    (today : String) (s : Store) :
    (update_account account_id r today s).1.status ≠ 415 ∧
    (∀ (ct1 ct2 : Option String) (ob : Option Body),
      update_account account_id { contentType := ct1, body := ob } today s
        = update_account account_id { contentType := ct2, body := ob } today s) ∧
    (r.contentType ≠ some "application/json" →
      (create_accounts r today s).1.status = 415) := by
  refine ⟨?_, fun ct1 ct2 ob => rfl,
    fun h => by rw [create_accounts_wrong_ct r today s h]; rfl⟩
  cases hf : Account.find account_id s with
  | none => simp [update_account, hf]
  | some existing =>
    cases hb : r.body with
    | none => simp [update_account, hf, hb, noBodyResp]
    | some data =>
      cases hd : existing.deserialize data today with
      | error e => simp [update_account, hf, hb, hd, badRequestResp]
      | ok updated => simp [update_account, hf, hb, hd]

/-- Witness for C10: a PUT with a wrong media type still updates (200), and
the same media type on create answers 415. -/
theorem c10_update_no_content_type_check_witness :
    (update_account 1 { contentType := some "text/html", body := some demoBody }
        "2024-06-01" demoStore).1.status ≠ 415 ∧
    (create_accounts { contentType := some "text/html", body := some demoBody }
        "2024-06-01" demoStore).1.status = 415 :=
  ⟨(c10_update_no_content_type_check 1 ⟨some "text/html", some demoBody⟩
      "2024-06-01" demoStore).1,
   (c10_update_no_content_type_check 1 ⟨some "text/html", some demoBody⟩
      "2024-06-01" demoStore).2.2 (by decide)⟩
